import Mathlib

/-!
Verification development for the IATF ("Indexed Agent Traversable File")
core engine, a shallow embedding of `src/python/iatf.py`.

Documents are modelled as the Python program sees them: a `List String`
of lines, the result of `content.split("\n")`.  All functions below are
direct translations of the corresponding Python functions; each carries a
comment naming its source.  The program's side effects are made explicit:
a command that prints an error and returns a non-zero exit code is
modelled as returning `none`; `rebuild_index` returns `some newLines`
exactly on the one path of the source that reaches `filepath.write_text`
(so `none` models "failure, no write performed").
-/

set_option maxRecDepth 100000
set_option maxHeartbeats 4000000

/-! ### Basic character and string helpers (Python `str` semantics) -/

/-- The brace characters, written via code points. -/
def lbrace : Char := Char.ofNat 123

def rbrace : Char := Char.ofNat 125

/-- Python `str.strip()` whitespace set (ASCII part). -/
def isPySpace (c : Char) : Bool :=
  c = ' ' || c = '\t' || c = '\n' || c = '\x0d' || c = '\x0b' || c = '\x0c'

/-- Python `str.strip()`. -/
def pyStrip (s : String) : String :=
  String.mk (((s.data.dropWhile isPySpace).reverse.dropWhile isPySpace).reverse)

/-- Python `s.startswith(p)`. -/
def pyStartsWith (s p : String) : Bool :=
  p.data.isPrefixOf s.data

/-- Python `s[n:]` on strings. -/
def pyDropStr (s : String) (n : Nat) : String :=
  String.mk (s.data.drop n)

/-- Python `s[:n]` on strings. -/
def pyTakeStr (s : String) (n : Nat) : String :=
  String.mk (s.data.take n)

/-- Python `s.lstrip("#")`. -/
def pyLstripHash (s : String) : String :=
  String.mk (s.data.dropWhile (· = '#'))

/-- Python `sep.join(xs)`. -/
def pyJoin (sep : String) (xs : List String) : String :=
  match xs with
  | [] => ""
  | x :: rest => rest.foldl (fun acc y => acc ++ sep ++ y) x

/-- ASCII lowercase conversion, Python `str.lower()` restricted to ASCII. -/
def asciiLowerChar (c : Char) : Char :=
  if 'A' ≤ c ∧ c ≤ 'Z' then Char.ofNat (c.toNat + 32) else c

def pyLower (s : String) : String :=
  String.mk (s.data.map asciiLowerChar)

/-- Substring search over character lists. -/
def charsContain (needle : List Char) : List Char → Bool
  | [] => needle.isEmpty
  | c :: rest => needle.isPrefixOf (c :: rest) || charsContain needle rest

/-- Python `a in b` for strings (substring containment). -/
def pyContains (hay needle : String) : Bool :=
  charsContain needle.data hay.data

/-- ASCII letter, the `[a-zA-Z]` class of the tag regexes. -/
def isAsciiAlpha (c : Char) : Bool :=
  ('a' ≤ c ∧ c ≤ 'z') || ('A' ≤ c ∧ c ≤ 'Z')

/-- ASCII digit. -/
def isAsciiDigit (c : Char) : Bool :=
  '0' ≤ c ∧ c ≤ '9'

/-- The `[a-zA-Z0-9_-]` class of the tag regexes. -/
def isIdChar (c : Char) : Bool :=
  isAsciiAlpha c || isAsciiDigit c || c = '_' || c = '-'

/-- Digits to `Nat`, Python `int()` on a digit string. -/
def digitsToNat (ds : List Char) : Nat :=
  ds.foldl (fun acc c => 10 * acc + (c.toNat - '0'.toNat)) 0

/-- Drop trailing blank lines: `while pre_lines and pre_lines[-1].strip() == "": pop`. -/
def dropTrailingBlanks (xs : List String) : List String :=
  ((xs.reverse.dropWhile (fun l => pyStrip l = "")).reverse)

/-- Drop leading blank lines: `while post_lines and post_lines[0].strip() == "": pop(0)`. -/
def dropLeadingBlanks (xs : List String) : List String :=
  xs.dropWhile (fun l => pyStrip l = "")

/-- Python list slice `xs[a:b]` with the clamping rules for non-negative
and negative slice arguments. -/
def pySlice (xs : List String) (a b : Int) : List String :=
  let n : Int := xs.length
  let a' : Nat := (if a < 0 then max 0 (n + a) else a).toNat
  let b' : Nat := (if b < 0 then max 0 (n + b) else b).toNat
  (xs.take b').drop a'

/-! ### SHA-256 (`hashlib.sha256`), executable over UTF-8 byte lists -/

def mod32 (n : Nat) : Nat := n % 4294967296

def rotr32 (n x : Nat) : Nat :=
  mod32 (Nat.lor (Nat.shiftRight x n) (Nat.shiftLeft x (32 - n)))

/-- The 64 round constants of FIPS 180-4, written in decimal. -/
def sha256K : List Nat :=
  [1116352408, 1899447441, 3049323471, 3921009573, 961987163, 1508970993,
   2453635748, 2870763221, 3624381080, 310598401, 607225278, 1426881987,
   1925078388, 2162078206, 2614888103, 3248222580, 3835390401, 4022224774,
   264347078, 604807628, 770255983, 1249150122, 1555081692, 1996064986,
   2554220882, 2821834349, 2952996808, 3210313671, 3336571891, 3584528711,
   113926993, 338241895, 666307205, 773529912, 1294757372, 1396182291,
   1695183700, 1986661051, 2177026350, 2456956037, 2730485921, 2820302411,
   3259730800, 3345764771, 3516065817, 3600352804, 4094571909, 275423344,
   430227734, 506948616, 659060556, 883997877, 958139571, 1322822218,
   1537002063, 1747873779, 1955562222, 2024104815, 2227730452, 2361852424,
   2428436474, 2756734187, 3204031479, 3329325298]

/-- The eight initial hash values of FIPS 180-4, written in decimal. -/
def sha256H0 : List Nat :=
  [1779033703, 3144134277, 1013904242, 2773480762,
   1359893119, 2600822924, 528734635, 1541459225]

/-- Big-endian 8-byte encoding of a length (in bits). -/
def bytesBE8 (n : Nat) : List Nat :=
  [mod32 0 + (Nat.shiftRight n 56) % 256, (Nat.shiftRight n 48) % 256,
   (Nat.shiftRight n 40) % 256, (Nat.shiftRight n 32) % 256,
   (Nat.shiftRight n 24) % 256, (Nat.shiftRight n 16) % 256,
   (Nat.shiftRight n 8) % 256, n % 256]

/-- SHA-256 message padding. -/
def sha256pad (msg : List Nat) : List Nat :=
  let len := msg.length
  msg ++ [0x80] ++ List.replicate ((119 - (len % 64)) % 64) 0 ++ bytesBE8 (8 * len)

/-- Split a byte list into 64-byte chunks (the input length is a multiple of 64). -/
def toChunks64 : Nat → List Nat → List (List Nat)
  | 0, _ => []
  | _, [] => []
  | Nat.succ fuel, bs => bs.take 64 :: toChunks64 fuel (bs.drop 64)

/-- Combine four bytes big-endian into one 32-bit word. -/
def word32Of (a b c d : Nat) : Nat :=
  mod32 (a * 16777216 + b * 65536 + c * 256 + d)

def chunkWords : List Nat → List Nat
  | a :: b :: c :: d :: rest => word32Of a b c d :: chunkWords rest
  | _ => []

def smallSigma0 (x : Nat) : Nat :=
  Nat.xor (Nat.xor (rotr32 7 x) (rotr32 18 x)) (Nat.shiftRight x 3)

def smallSigma1 (x : Nat) : Nat :=
  Nat.xor (Nat.xor (rotr32 17 x) (rotr32 19 x)) (Nat.shiftRight x 10)

def bigSigma0 (x : Nat) : Nat :=
  Nat.xor (Nat.xor (rotr32 2 x) (rotr32 13 x)) (rotr32 22 x)

def bigSigma1 (x : Nat) : Nat :=
  Nat.xor (Nat.xor (rotr32 6 x) (rotr32 11 x)) (rotr32 25 x)

/-- Extend the 16 message words to 64 schedule words. -/
def extendSchedule (i : Nat) (w : Array Nat) : Array Nat :=
  match i with
  | 0 => w
  | Nat.succ fuel =>
    let t := w.size
    let wNew := mod32 (smallSigma1 (w.getD (t - 2) 0) + w.getD (t - 7) 0 +
      smallSigma0 (w.getD (t - 15) 0) + w.getD (t - 16) 0)
    extendSchedule fuel (w.push wNew)

/-- One compression round. -/
def sha256Round (st : List Nat) (kw : Nat × Nat) : List Nat :=
  match st with
  | [a, b, c, d, e, f, g, h] =>
    let ch := Nat.xor (Nat.land e f) (Nat.land (Nat.xor e 4294967295) g)
    let maj := Nat.xor (Nat.xor (Nat.land a b) (Nat.land a c)) (Nat.land b c)
    let t1 := mod32 (h + bigSigma1 e + ch + kw.1 + kw.2)
    let t2 := mod32 (bigSigma0 a + maj)
    [mod32 (t1 + t2), a, b, c, mod32 (d + t1), e, f, g]
  | other => other

/-- Process one 64-byte chunk. -/
def sha256Chunk (h : List Nat) (chunk : List Nat) : List Nat :=
  let w := extendSchedule 48 (chunkWords chunk).toArray
  let st := (sha256K.zip w.toList).foldl sha256Round h
  (h.zip st).map (fun p => mod32 (p.1 + p.2))

/-- SHA-256 over a byte list, producing the eight 32-bit state words. -/
def sha256Words (msg : List Nat) : List Nat :=
  (toChunks64 (sha256pad msg).length (sha256pad msg)).foldl sha256Chunk sha256H0

def hexDigit (n : Nat) : Char :=
  if n < 10 then Char.ofNat ('0'.toNat + n) else Char.ofNat ('a'.toNat + n - 10)

def toHex8 (n : Nat) : List Char :=
  (List.range 8).map (fun i => hexDigit ((Nat.shiftRight n (28 - 4 * i)) % 16))

/-- UTF-8 encoding of one character (Python `str.encode("utf-8")`). -/
def utf8Char (c : Char) : List Nat :=
  let n := c.toNat
  if n < 128 then [n]
  else if n < 2048 then
    [192 + Nat.shiftRight n 6, 128 + n % 64]
  else if n < 65536 then
    [224 + Nat.shiftRight n 12, 128 + (Nat.shiftRight n 6) % 64, 128 + n % 64]
  else
    [240 + Nat.shiftRight n 18, 128 + (Nat.shiftRight n 12) % 64,
     128 + (Nat.shiftRight n 6) % 64, 128 + n % 64]

def utf8Bytes (s : String) : List Nat :=
  (s.data.map utf8Char).foldr (· ++ ·) []

/-- `hashlib.sha256(s.encode("utf-8")).hexdigest()`. -/
def sha256hex (s : String) : String :=
  String.mk (((sha256Words (utf8Bytes s)).map toHex8).foldr (· ++ ·) [])

/-! ### Tag and reference patterns of `iatf.py`

`open_pattern  = ^\x7b#([a-zA-Z][a-zA-Z0-9_-]*)\x7d`  (re.match, prefix-anchored)
`close_pattern = ^\x7b/([a-zA-Z][a-zA-Z0-9_-]*)\x7d`
`ref_pattern   =  \x7b@([a-zA-Z][a-zA-Z0-9_-]*)\x7d`  (re.finditer)

The id run `[a-zA-Z0-9_-]*` is greedy, and since id characters are
disjoint from the closing brace the match is the maximal run followed by
the brace. -/

/-- Match `\x7bM id \x7d` at the start of a line, where `M` is the marker
(`#`, `/` or `@`), returning the captured id. Anything may follow the
closing brace (the patterns have no `$`). -/
def matchTagAfter (marker : Char) (line : String) : Option String :=
  match line.data with
  | b :: m :: rest =>
    if b = lbrace ∧ m = marker then
      match rest with
      | c :: cs =>
        if isAsciiAlpha c then
          match cs.dropWhile isIdChar with
          | d :: _ =>
            if d = rbrace then some (String.mk (c :: cs.takeWhile isIdChar)) else none
          | [] => none
        else none
      | [] => none
    else none
  | _ => none

def matchOpenTag (line : String) : Option String := matchTagAfter '#' line

def matchCloseTag (line : String) : Option String := matchTagAfter '/' line

/-- All `\x7b@id\x7d` matches in a line, left to right, non-overlapping
(`ref_pattern.finditer`). Fueled by the line length. -/
def findRefsGo : Nat → List Char → List String
  | 0, _ => []
  | _, [] => []
  | Nat.succ fuel, c :: rest =>
    if c = lbrace then
      match rest with
      | m :: c0 :: cs =>
        if m = '@' ∧ isAsciiAlpha c0 then
          match cs.dropWhile isIdChar with
          | d :: after =>
            if d = rbrace then
              String.mk (c0 :: cs.takeWhile isIdChar) :: findRefsGo fuel after
            else findRefsGo fuel rest
          | [] => []
        else findRefsGo fuel rest
      | _ => findRefsGo fuel rest
    else findRefsGo fuel rest

def pyFindRefs (line : String) : List String := findRefsGo line.data.length line.data

/-! ### Section records and the Section Parser (`parse_content_section`) -/

/-- The `IATFSection` class of `iatf.py` with its `__init__` defaults. -/
structure IATFSection where
  id : String
  title : String
  start_line : Int
  end_line : Int := 0
  level : Nat := 1
  summary : String := ""
  created : String := ""
  modified : String := ""
  x_hash : String := ""
  word_count : Nat := 0
  in_header : Bool := true
  summary_continuation : Bool := false
  content_lines : List String := []
deriving Repr, DecidableEq

/-- The parser's mutable state: the ordered section list (Python keeps
object references; here the stack holds indices into the array). -/
def modifyTop (arr : Array IATFSection) (stack : List Nat)
    (f : IATFSection → IATFSection) : Array IATFSection :=
  match stack with
  | [] => arr
  | idx :: _ => arr.modify idx f

def stackTop (arr : Array IATFSection) (stack : List Nat) : Option IATFSection :=
  match stack with
  | [] => none
  | idx :: _ => arr.get? idx

/-- Result of the header-annotation block of the parser loop body:
`cont` models a Python `continue`, `fall` falls through to the
closing-tag and content handling. -/
inductive HeaderStep where
  | cont (arr : Array IATFSection) (stack : List Nat)
  | fall (arr : Array IATFSection) (stack : List Nat)

/-- Lines 157-171 of `iatf.py` (header annotations, only while
`in_header`; `@summary:` starts a continuation, `@created:` stops it,
any other `@` line is swallowed; an indented continuation extends the
summary; anything else permanently ends header mode and falls through). -/
def parseHeaderPhase (arr : Array IATFSection) (stack : List Nat) (line : String) :
    HeaderStep :=
  match stackTop arr stack with
  | some top =>
    if top.in_header then
      if pyStartsWith line "@" then
        if pyStartsWith line "@summary:" then
          .cont (modifyTop arr stack (fun s =>
            { s with summary := pyStrip (pyDropStr line 9), summary_continuation := true })) stack
        else if pyStartsWith line "@created:" then
          .cont (modifyTop arr stack (fun s => { s with summary_continuation := false })) stack
        else .cont arr stack
      else if (pyStartsWith line " " || pyStartsWith line "\t") ∧ top.summary_continuation then
        .cont (modifyTop arr stack (fun s =>
          { s with summary := s.summary ++ " " ++ pyStrip line })) stack
      else
        .fall (modifyTop arr stack (fun s =>
          { s with in_header := false, summary_continuation := false })) stack
    else .fall arr stack
  | none => .fall arr stack

/-- One iteration of the `parse_content_section` loop over `(i, line)`. -/
def parseStep (st : Array IATFSection × List Nat) (il : Nat × String) :
    Array IATFSection × List Nat :=
  let (arr, stack) := st
  let (i, line) := il
  match matchOpenTag line with
  | some sid =>
    let idx := arr.size
    (arr.push { id := sid, title := sid, start_line := ((i + 1 : Nat) : Int),
                level := stack.length + 1 }, idx :: stack)
  | none =>
    match parseHeaderPhase arr stack line with
    | .cont arr' stack' => (arr', stack')
    | .fall arr' stack' =>
      match matchCloseTag line with
      | some sid =>
        match stackTop arr' stack' with
        | some top =>
          if top.id = sid then
            (modifyTop arr' stack' (fun s => { s with end_line := ((i + 1 : Nat) : Int) }),
             stack'.tail)
          else (arr', stack')
        | none => (arr', stack')
      | none =>
        match stackTop arr' stack' with
        | some top =>
          if ¬ top.in_header then
            (modifyTop arr' stack' (fun s =>
              let s := if pyStartsWith line "#" ∧ ¬ pyStartsWith s.title "#" then
                  { s with title := pyStrip (pyLstripHash line) }
                else s
              { s with content_lines := s.content_lines ++ [line] }), stack')
          else (arr', stack')
        | none => (arr', stack')

/-- `parse_content_section(lines, content_start)`: all sections, in
document (pre-order) order — sections are appended when opened. -/
def parse_content_section (lines : List String) (content_start : Nat) : List IATFSection :=
  ((lines.enum.drop content_start).foldl parseStep (#[], [])).1.toList

/-! ### Nesting Validator (`validate_nesting`) -/

def validateNestingGo (openSections : List String) : List String → Option String
  | [] =>
    match openSections with
    | [] => none
    | top :: _ => some ("Unclosed section: " ++ top)
  | line :: rest =>
    match matchOpenTag line with
    | some sid => validateNestingGo (sid :: openSections) rest
    | none =>
      match matchCloseTag line with
      | some sid =>
        match openSections with
        | t :: ts =>
          if t = sid then validateNestingGo ts rest
          else some ("Closing tag without matching opening: " ++ sid)
        | [] => some ("Closing tag without matching opening: " ++ sid)
      | none => validateNestingGo openSections rest

/-- `validate_nesting(lines, content_start)`: `none` means valid. -/
def validate_nesting (lines : List String) (content_start : Nat) : Option String :=
  validateNestingGo [] (lines.drop content_start)

/-! ### Reference Extractor (`extract_references`, `validate_references`) -/

/-- Append one `(line, containing)` occurrence to the insertion-ordered
reference map (Python dict of lists). -/
def refsAppend (refs : List (String × List (Nat × Option String))) (target : String)
    (entry : Nat × Option String) : List (String × List (Nat × Option String)) :=
  if refs.any (fun p => p.1 = target) then
    refs.map (fun p => if p.1 = target then (p.1, p.2 ++ [entry]) else p)
  else refs ++ [(target, [entry])]

def extractRefsStep
    (st : List (String × List (Nat × Option String)) × List String × Bool)
    (il : Nat × String) :
    List (String × List (Nat × Option String)) × List String × Bool :=
  let (refs, openSections, inFence) := st
  let (i, line) := il
  if inFence then
    (refs, openSections, ¬ (pyStrip line = "```"))
  else if pyStrip line = "```" then
    (refs, openSections, true)
  else
    match matchOpenTag line with
    | some sid => (refs, sid :: openSections, false)
    | none =>
      match matchCloseTag line with
      | some sid =>
        match openSections with
        | t :: ts => if t = sid then (refs, ts, false) else (refs, [], false)
        | [] => (refs, [], false)
      | none =>
        let containing := openSections.head?
        ((pyFindRefs line).foldl (fun r t => refsAppend r t (i + 1, containing)) refs,
         openSections, false)

/-- `extract_references(lines, content_start)`: target id → ordered list
of `(line number, containing section)`, fences (lines that strip to three
backticks) excluded. -/
def extract_references (lines : List String) (content_start : Nat) :
    List (String × List (Nat × Option String)) :=
  ((lines.enum.drop content_start).foldl extractRefsStep ([], [], false)).1

/-- Python string comparison (by code point). -/
def charsLt : List Char → List Char → Bool
  | [], [] => false
  | [], _ :: _ => true
  | _ :: _, [] => false
  | a :: as, b :: bs => a.toNat < b.toNat || (a = b && charsLt as bs)

def strLt (a b : String) : Bool := charsLt a.data b.data

/-- Python `<` on `(line, target, containing)` tuples. -/
def refTupleLt (x y : Nat × String × String) : Bool :=
  x.1 < y.1 || (x.1 = y.1 &&
    (strLt x.2.1 y.2.1 || (x.2.1 = y.2.1 && strLt x.2.2 y.2.2)))

def insertRefTuple (x : Nat × String × String) :
    List (Nat × String × String) → List (Nat × String × String)
  | [] => [x]
  | y :: ys => if refTupleLt x y then x :: y :: ys else y :: insertRefTuple x ys

/-- Stable ascending sort, Python `list.sort()` on tuples. -/
def sortRefTuples (xs : List (Nat × String × String)) : List (Nat × String × String) :=
  xs.foldr insertRefTuple []

/-- `validate_references(lines, content_start, sections)`. -/
def validate_references (lines : List String) (content_start : Nat)
    (sections : List IATFSection) : List String :=
  let valid_ids := sections.map (·.id)
  let references := extract_references lines content_start
  let ordered_refs := references.foldl
    (fun acc p => acc ++ p.2.map (fun e => (e.1, p.1, e.2.getD ""))) []
  (sortRefTuples ordered_refs).foldl (fun errs t =>
    let (line_num, target, containing_section) := t
    if ¬ valid_ids.contains target then
      errs ++ ["Reference \x7b@" ++ target ++ "\x7d at line " ++ toString line_num ++
        ": target section does not exist"]
    else if target = containing_section then
      errs ++ ["Reference \x7b@" ++ target ++ "\x7d at line " ++ toString line_num ++
        ": self-reference not allowed"]
    else errs) []

/-! ### Duplicates, hashes, word counts -/

/-- `find_duplicate_section_ids`: an id is reported once, when its count
reaches exactly 2. -/
def find_duplicate_section_ids (sections : List IATFSection) : List String :=
  (sections.foldl (fun (st : List (String × Nat) × List String) s =>
    let (seen, duplicates) := st
    let cnt := (((seen.find? (·.1 = s.id)).map (·.2)).getD 0) + 1
    let seen' :=
      if seen.any (·.1 = s.id) then
        seen.map (fun p => if p.1 = s.id then (p.1, cnt) else p)
      else seen ++ [(s.id, cnt)]
    (seen', if cnt = 2 then duplicates ++ [s.id] else duplicates)) ([], [])).2

/-- `compute_content_hash`: truncated (Git-style, 7 hex chars) SHA-256 of
the body lines joined by newline. -/
def compute_content_hash (content_lines : List String) : String :=
  pyTakeStr (sha256hex (pyJoin "\n" content_lines)) 7

def wsTokenCountGo : Nat → List Char → Nat
  | 0, _ => 0
  | Nat.succ fuel, cs =>
    match cs.dropWhile isPySpace with
    | [] => 0
    | rest => 1 + wsTokenCountGo fuel (rest.dropWhile (fun c => ¬ isPySpace c))

/-- `count_words`: whitespace-token count of the lines joined by spaces. -/
def count_words (content_lines : List String) : Nat :=
  let text := pyJoin " " content_lines
  wsTokenCountGo text.data.length text.data

/-! ### INDEX metadata parsing (`parse_index_metadata`) -/

/-- Per-section metadata recorded in the existing INDEX; missing keys are
the empty string, matching the `.get(k, "")` accesses in `rebuild_index`. -/
structure IndexMetaEntry where
  hash : String := ""
  created : String := ""
  modified : String := ""
deriving Repr, DecidableEq

def emptyMetaEntry : IndexMetaEntry := ⟨"", "", ""⟩

def metaLookup (m : List (String × IndexMetaEntry)) (sid : String) : IndexMetaEntry :=
  (((m.find? (·.1 = sid)).map (·.2)).getD emptyMetaEntry)

def metaEnsure (m : List (String × IndexMetaEntry)) (sid : String) :
    List (String × IndexMetaEntry) :=
  if m.any (·.1 = sid) then m else m ++ [(sid, emptyMetaEntry)]

def metaUpdate (m : List (String × IndexMetaEntry)) (sid : String)
    (f : IndexMetaEntry → IndexMetaEntry) : List (String × IndexMetaEntry) :=
  if m.any (·.1 = sid) then
    m.map (fun p => if p.1 = sid then (p.1, f p.2) else p)
  else m ++ [(sid, f emptyMetaEntry)]

/-- Python `s.split(":", 1)[1]` (text after the first colon). -/
def afterFirstColon (s : String) : String :=
  String.mk ((s.data.dropWhile (· ≠ ':')).tail)

/-- Python `s.split("|")` (single-character separator, empty parts kept). -/
def splitOnChar (c : Char) : List Char → List (List Char)
  | [] => [[]]
  | x :: rest =>
    let r := splitOnChar c rest
    if x = c then [] :: r
    else
      match r with
      | h :: t => (x :: h) :: t
      | [] => [[x]]

def pySplitBar (s : String) : List String :=
  (splitOnChar '|' s.data).map String.mk

/-- After a `\x7b#` occurrence: `([a-zA-Z][a-zA-Z0-9_-]*)\s*\|`. -/
def idAfterBraceHash (cs : List Char) : Option String :=
  match cs with
  | c :: rest =>
    if isAsciiAlpha c then
      match ((rest.dropWhile isIdChar).dropWhile isPySpace) with
      | '|' :: _ => some (String.mk (c :: rest.takeWhile isIdChar))
      | _ => none
    else none
  | [] => none

/-- All positions (ascending) where `\x7b#id\s*\|` matches, as captured ids. -/
def braceHashList : Nat → List Char → List String
  | 0, _ => []
  | _, [] => []
  | Nat.succ fuel, c :: rest =>
    let tailMatches := braceHashList fuel rest
    match rest with
    | m :: rest2 =>
      if c = lbrace ∧ m = '#' then
        match idAfterBraceHash rest2 with
        | some sid => sid :: tailMatches
        | none => tailMatches
      else tailMatches
    | [] => tailMatches

/-- `index_entry_re = ^#\x7b1,6\x7d\s+.*\x7b#([a-zA-Z][a-zA-Z0-9_-]*)\s*\|`
of `parse_index_metadata` (prefix match on the stripped line). The leading
`#` run must be 1-6 long and followed by whitespace; the greedy `.*` makes
the capture come from the last matching `\x7b#...` occurrence. -/
def matchIndexEntryMeta (stripped : String) : Option String :=
  let cs := stripped.data
  let r := (cs.takeWhile (· = '#')).length
  if 1 ≤ r ∧ r ≤ 6 then
    match cs.drop r with
    | c :: _ =>
      if isPySpace c then (braceHashList cs.length (cs.drop (r + 1))).getLast?
      else none
    | [] => none
  else none

def metaStep (st : List (String × IndexMetaEntry) × Option String) (line : String) :
    List (String × IndexMetaEntry) × Option String :=
  let (metadata, current_id) := st
  let stripped := pyStrip line
  if stripped = "" then (metadata, none)
  else
    match matchIndexEntryMeta stripped with
    | some sid => (metaEnsure metadata sid, some sid)
    | none =>
      match current_id with
      | none => (metadata, current_id)
      | some cur =>
        if pyStartsWith stripped "Hash:" then
          (metaUpdate metadata cur (fun e =>
            { e with hash := pyStrip (afterFirstColon stripped) }), current_id)
        else if pyStartsWith stripped "Created:" || pyStartsWith stripped "Modified:" then
          ((pySplitBar stripped).map pyStrip |>.foldl (fun md part =>
            if pyStartsWith part "Created:" then
              metaUpdate md cur (fun e => { e with created := pyStrip (afterFirstColon part) })
            else if pyStartsWith part "Modified:" then
              metaUpdate md cur (fun e => { e with modified := pyStrip (afterFirstColon part) })
            else md) metadata, current_id)
        else (metadata, current_id)

/-- The marker scan shared by `parse_index_metadata`, `rebuild_index`,
`read_command`, `read_by_title_command` and `validate_command`: the last
`===INDEX===` line before the first `===CONTENT===` line, and the first
`===CONTENT===` line. -/
def scanIndexContentGo (i : Nat) (acc : Option Nat) : List String → Option Nat × Option Nat
  | [] => (acc, none)
  | line :: rest =>
    if pyStrip line = "===INDEX===" then scanIndexContentGo (i + 1) (some i) rest
    else if pyStrip line = "===CONTENT===" then (acc, some i)
    else scanIndexContentGo (i + 1) acc rest

def scanIndexContent (lines : List String) : Option Nat × Option Nat :=
  scanIndexContentGo 0 none lines

/-- `parse_index_metadata(lines)`. -/
def parse_index_metadata (lines : List String) : List (String × IndexMetaEntry) :=
  match scanIndexContent lines with
  | (some index_start, some index_end) =>
    (((lines.take index_end).drop (index_start + 1)).foldl metaStep ([], none)).1
  | _ => []

/-! ### Index Renderer (`generate_index`) and `rebuild_index` -/

def natDigitsGo : Nat → Nat → List Char
  | 0, _ => []
  | Nat.succ fuel, n =>
    if n < 10 then [hexDigit n] else natDigitsGo fuel (n / 10) ++ [hexDigit (n % 10)]

def natToStr (n : Nat) : String := String.mk (natDigitsGo (n + 1) n)

/-- Python `str()` of an int. -/
def intToStr (i : Int) : String :=
  match i with
  | Int.ofNat n => natToStr n
  | Int.negSucc n => "-" ++ natToStr (n + 1)

/-- `generate_index(sections, content_hash)`; the `datetime.now(...)`
timestamp is passed explicitly as `genTimestamp`. -/
def generate_index (sections : List IATFSection) (content_hash : String)
    (genTimestamp : String) : List String :=
  ["===INDEX===",
   "<!-- AUTO-GENERATED - DO NOT EDIT MANUALLY -->",
   "<!-- Generated: " ++ genTimestamp ++ " -->",
   "<!-- Content-Hash: sha256:" ++ content_hash ++ " -->",
   ""] ++
  sections.foldl (fun acc s =>
    let level_marker := String.mk (List.replicate s.level '#')
    let index_line := level_marker ++ " " ++ s.title ++ " \x7b#" ++ s.id ++
      " | lines:" ++ intToStr s.start_line ++ "-" ++ intToStr s.end_line ++
      " | words:" ++ natToStr s.word_count ++ "\x7d"
    acc ++ [index_line] ++
    (if s.summary ≠ "" then ["> " ++ s.summary] else []) ++
    (if s.created ≠ "" ∨ s.modified ≠ "" then
      ["  " ++ pyJoin " | "
        ((if s.created ≠ "" then ["Created: " ++ s.created] else []) ++
         (if s.modified ≠ "" then ["Modified: " ++ s.modified] else []))]
     else []) ++
    (if s.x_hash ≠ "" then ["  Hash: " ++ s.x_hash] else []) ++
    [""]) []

/-- Lines 464-491 of `rebuild_index`: per-section hash, word count and
created/modified staleness update against the prior INDEX metadata. -/
def updateSectionMeta (index_meta : List (String × IndexMetaEntry)) (today : String)
    (s : IATFSection) : IATFSection :=
  let new_hash := compute_content_hash s.content_lines
  let old_hash := (metaLookup index_meta s.id).hash
  let old_modified := (metaLookup index_meta s.id).modified
  let old_created := (metaLookup index_meta s.id).created
  let word_count := count_words s.content_lines
  let created := if old_created ≠ "" then old_created else today
  let modified :=
    if old_hash ≠ "" ∧ old_hash ≠ new_hash then today
    else if old_hash ≠ "" then old_modified
    else if old_modified ≠ "" then old_modified
    else today
  { s with word_count := word_count, created := created, modified := modified,
           x_hash := new_hash }

def firstIdx (p : String → Bool) (lines : List String) : Option Nat :=
  (lines.enum.find? (fun il => p il.2)).map (·.1)

/-- The fallback of `rebuild_index` when no `===INDEX===` exists: insert
after the `:::IATF` line, skipping `@` metadata lines. -/
def headerEndFallback (lines : List String) : Option Nat :=
  match firstIdx (fun l => pyStrip l = ":::IATF") lines with
  | none => none
  | some i =>
    some (i + 1 + ((lines.drop (i + 1)).takeWhile (fun l => pyStartsWith l "@")).length)

/-- Lines 519-548 of `rebuild_index`: whole-document content hash
(truncated to 7 hex chars), two-pass line-delta correction, and the
splice `pre ++ blank ++ INDEX ++ blank ++ post` that is written back. -/
def rebuildCore (lines : List String) (content_start header_end index_end : Nat)
    (sections' : List IATFSection) (genTimestamp : String) : List String :=
  let content_text := pyJoin "\n" (lines.drop content_start)
  let content_hash := pyTakeStr (sha256hex content_text) 7
  let new_index := generate_index sections' content_hash genTimestamp
  let original_span : Int := (index_end : Int) - (header_end : Int)
  let new_span : Int := (new_index.length : Int) + 1
  let line_delta := new_span - original_span
  let new_index' :=
    if line_delta ≠ 0 then
      generate_index (sections'.map (fun s =>
        { s with start_line := s.start_line + line_delta,
                 end_line := s.end_line + line_delta })) content_hash genTimestamp
    else new_index
  let pre_lines := dropTrailingBlanks (lines.take header_end)
  let post_lines := dropLeadingBlanks (lines.drop index_end)
  pre_lines ++ [""] ++ new_index' ++ [""] ++ post_lines

/-- `rebuild_index(filepath)` as a pure function on the file's lines.
`some newLines` is returned exactly on the source path that reaches
`filepath.write_text`; every `return False` (and the caught exception on
the reference-error path, where line 461 references the undefined name
`errors` and the resulting `NameError` is caught by the outer handler)
is `none`: the command fails and the file is left untouched. -/
def rebuild_index (lines : List String) (today genTimestamp : String) :
    Option (List String) :=
  match firstIdx (fun l => pyStrip l = "===CONTENT===") lines with
  | none => none
  | some ci =>
    let content_start := ci + 1
    match validate_nesting lines content_start with
    | some _ => none
    | none =>
      let sections := parse_content_section lines content_start
      let index_meta := parse_index_metadata lines
      if sections.isEmpty then none
      else if ¬ (find_duplicate_section_ids sections).isEmpty then none
      else if ¬ (validate_references lines content_start sections).isEmpty then none
      else
        let sections' := sections.map (updateSectionMeta index_meta today)
        match scanIndexContent lines with
        | (some header_end, some index_end) =>
          some (rebuildCore lines content_start header_end index_end sections' genTimestamp)
        | (none, some index_end) =>
          match headerEndFallback lines with
          | some header_end =>
            some (rebuildCore lines content_start header_end index_end sections' genTimestamp)
          | none => none
        | _ => none

/-! ### Graph/Query layer: `read_command` and `read_by_title_command` -/

/-- `read_command(filepath, section_id)`: `some` of the printed lines on
exit code 0, `none` on any error exit. The marker loop checks the
`===CONTENT===` condition before the `===INDEX===` condition per line;
both must be found (INDEX strictly before CONTENT) to proceed. -/
def read_command (lines : List String) (section_id : String) : Option (List String) :=
  match scanIndexContent lines with
  | (some _, some ci) =>
    let content_start := ci + 1
    let sections := parse_content_section lines content_start
    match sections.find? (·.id = section_id) with
    | some target => some (pySlice lines (target.start_line - 1) target.end_line)
    | none => none
  | _ => none

/-- Index positions skipped while a predicate holds, starting at `i`
(bounded by the array size). -/
def skipWhileIdx (pr : Char → Bool) (arr : Array Char) : Nat → Nat → Nat
  | 0, i => i
  | Nat.succ fuel, i =>
    if i < arr.size then
      if pr (arr.getD i ' ') then skipWhileIdx pr arr fuel (i + 1) else i
    else i

def charsRange (arr : Array Char) (lo hi : Nat) : List Char :=
  (List.range (hi - lo)).map (fun k => arr.getD (lo + k) ' ')

/-- `hi, hi-1, ..., lo` (empty when `hi < lo`). -/
def descRange (hi lo : Nat) : List Nat :=
  (List.range (hi + 1 - lo)).map (fun k => hi - k)

/-- The tail `\s*\x7b#([a-zA-Z][a-zA-Z0-9_-]*)\s*\|` of the
`read_by_title_command` entry pattern, starting at `start`; the final
`.*\x7d$` is accounted for by requiring the `|` to sit strictly before
the final character (which the caller has checked to be `\x7d`). -/
def titleEntrySuffix (arr : Array Char) (n : Nat) (start : Nat) : Option String :=
  let p := skipWhileIdx isPySpace arr (n + 1) start
  if p + 2 < n ∧ arr.getD p ' ' = lbrace ∧ arr.getD (p + 1) ' ' = '#' ∧
      isAsciiAlpha (arr.getD (p + 2) ' ') then
    let e := skipWhileIdx isIdChar arr (n + 1) (p + 3)
    let q := skipWhileIdx isPySpace arr (n + 1) e
    if q + 1 < n ∧ arr.getD q ' ' = '|' then
      some (String.mk (charsRange arr (p + 2) e))
    else none
  else none

/-- The index-entry pattern of `read_by_title_command` (source line 877),
verbatim including its literal `[OK] ` character class and space:
`^#\x7b1,6\x7d\s+(.+[OK] )\s*\x7b#([a-zA-Z][a-zA-Z0-9_-]*)\s*\|.*\x7d$`.
A match needs the captured group to end with `O` or `K` followed by a
space. Backtracking preference: the `\s+` consumes as much whitespace as
possible (group start `a` as late as possible), then the greedy `.+`
makes the `[OK]` position `j` as late as possible. -/
def matchReadTitleEntry (stripped : String) : Option (String × String) :=
  let cs := stripped.data
  let arr := cs.toArray
  let n := arr.size
  let r := (cs.takeWhile (· = '#')).length
  if 1 ≤ r ∧ r ≤ 6 ∧ r < n ∧ isPySpace (arr.getD r ' ') ∧ 0 < n ∧
      arr.getD (n - 1) ' ' = rbrace then
    let wslen := ((cs.drop r).takeWhile isPySpace).length
    (descRange (r + wslen) (r + 1)).findSome? (fun a =>
      (descRange (n - 2) (a + 1)).findSome? (fun j =>
        if (arr.getD j ' ' = 'O' ∨ arr.getD j ' ' = 'K') ∧ arr.getD (j + 1) ' ' = ' ' then
          (titleEntrySuffix arr n (j + 2)).map (fun sid =>
            (String.mk (charsRange arr a (j + 2)), sid))
        else none))
  else none

/-- `read_by_title_command(filepath, title)`: INDEX-declared titles in
document order, (a) case-insensitive exact match, (b) first
case-insensitive substring match, else error (`none`); on a match it
delegates to `read_command`. -/
def read_by_title_command (lines : List String) (title : String) : Option (List String) :=
  match scanIndexContent lines with
  | (some index_start, some index_end) =>
    let entries := ((lines.take index_end).drop (index_start + 1)).foldl (fun acc line =>
      match matchReadTitleEntry (pyStrip line) with
      | some te => acc ++ [te]
      | none => acc) []
    let exact := entries.find? (fun te => pyLower te.1 = pyLower title)
    let matched_id :=
      match exact with
      | some te => some te.2
      | none => (entries.find? (fun te => pyContains (pyLower te.1) (pyLower title))).map (·.2)
    match matched_id with
    | some mid => read_command lines mid
    | none => none
  | _ => none

/-! ### Validator (`validate_command`) -/

def isLowerAlnum (c : Char) : Bool := ('a' ≤ c ∧ c ≤ 'z') || isAsciiDigit c

def isHexLower (c : Char) : Bool := ('a' ≤ c ∧ c ≤ 'f') || isAsciiDigit c

/-- `^<!-- Content-Hash:\s*([a-z0-9]+):([a-f0-9]+)\s*-->$` on the
stripped line, capturing algorithm and digest. -/
def matchContentHashComment (stripped : String) : Option (String × String) :=
  let cs := stripped.data
  let pre := "<!-- Content-Hash:".data
  if pre.isPrefixOf cs then
    let rest := (cs.drop pre.length).dropWhile isPySpace
    let algo := rest.takeWhile isLowerAlnum
    if algo.isEmpty then none
    else
      match rest.drop algo.length with
      | ':' :: rest2 =>
        let hexs := rest2.takeWhile isHexLower
        if hexs.isEmpty then none
        else
          let rest3 := (rest2.drop hexs.length).dropWhile isPySpace
          if rest3 = ['-', '-', '>'] then some (String.mk algo, String.mk hexs)
          else none
      | _ => none
  else none

/-- A candidate match of check 7's entry tail
`\x7b#(id)\s*\|\s*lines:(\d+)-(\d+)[^\x7d]*\x7d$` at the head of a
suffix that extends to the end of the stripped line. -/
def validateEntryAt (cs : List Char) : Option (String × Nat × Nat) :=
  match cs with
  | b :: h :: rest =>
    if b = lbrace ∧ h = '#' then
      match rest with
      | c :: rest1 =>
        if isAsciiAlpha c then
          let run := rest1.takeWhile isIdChar
          match (rest1.drop run.length).dropWhile isPySpace with
          | '|' :: rest2 =>
            let rest3 := rest2.dropWhile isPySpace
            if "lines:".data.isPrefixOf rest3 then
              let rest4 := rest3.drop 6
              let d1 := rest4.takeWhile isAsciiDigit
              if d1.isEmpty then none
              else
                match rest4.drop d1.length with
                | '-' :: rest5 =>
                  let d2 := rest5.takeWhile isAsciiDigit
                  if d2.isEmpty then none
                  else
                    match (rest5.drop d2.length).reverse with
                    | last :: zsRev =>
                      if last = rbrace ∧ zsRev.all (· ≠ rbrace) then
                        some (String.mk (c :: run), digitsToNat d1, digitsToNat d2)
                      else none
                    | [] => none
                | _ => none
            else none
          | _ => none
        else none
      | [] => none
    else none
  | _ => none

def validateEntryCandidates : Nat → List Char → List (String × Nat × Nat)
  | 0, _ => []
  | _, [] => []
  | Nat.succ fuel, c :: rest =>
    let tailC := validateEntryCandidates fuel rest
    match validateEntryAt (c :: rest) with
    | some t => t :: tailC
    | none => tailC

/-- Check 7's `index_entry_re` (source line 1151): 1-6 leading `#`s,
whitespace, greedy `.*` (so the capture comes from the last matching
occurrence), then id, line range and a final `\x7d` ending the line. -/
def matchValidateIndexEntry (stripped : String) : Option (String × Nat × Nat) :=
  let cs := stripped.data
  let r := (cs.takeWhile (· = '#')).length
  if 1 ≤ r ∧ r ≤ 6 then
    match cs.drop r with
    | c :: _ =>
      if isPySpace c then (validateEntryCandidates cs.length (cs.drop (r + 1))).getLast?
      else none
    | [] => none
  else none

def indexPositions (lines : List String) : List Nat :=
  (lines.enum.filter (fun il => pyStrip il.2 = "===INDEX===")).map (·.1)

def contentPositions (lines : List String) : List Nat :=
  (lines.enum.filter (fun il => pyStrip il.2 = "===CONTENT===")).map (·.1)

/-- Check 1: format declaration. -/
def check1Errs (lines : List String) : List String :=
  if ¬ (pyStrip (lines.headD "") = ":::IATF") then
    ["Missing format declaration (:::IATF)"]
  else []

/-- Check 2: INDEX/CONTENT marker counts and ordering. -/
def check2Errs (lines : List String) : List String :=
  let ip := indexPositions lines
  let cp := contentPositions lines
  (if cp.isEmpty then ["Missing CONTENT section"] else []) ++
  (if 1 < ip.length then ["Multiple INDEX sections found"] else []) ++
  (if 1 < cp.length then ["Multiple CONTENT sections found"] else []) ++
  (if ¬ ip.isEmpty ∧ ¬ cp.isEmpty ∧ cp.headD 0 < ip.headD 0 then
    ["INDEX section appears after CONTENT"] else [])

/-- Check 5: whole-file open/close scan. On a mismatched closing tag the
error is recorded and scanning continues without popping; unclosed ids
are reported bottom-to-top at the end. -/
def check5Step (st : List String × List String) (line : String) :
    List String × List String :=
  let (errs, open_sections) := st
  match matchOpenTag line with
  | some sid => (errs, open_sections ++ [sid])
  | none =>
    match matchCloseTag line with
    | some sid =>
      match open_sections.getLast? with
      | some t =>
        if t = sid then (errs, open_sections.dropLast)
        else (errs ++ ["Closing tag without matching opening: " ++ sid], open_sections)
      | none => (errs ++ ["Closing tag without matching opening: " ++ sid], open_sections)
    | none => (errs, open_sections)

def check5All (lines : List String) : List String × Bool :=
  let (errs, open_sections) := lines.foldl check5Step ([], [])
  let errs' := errs ++ open_sections.map (fun sid => "Unclosed section: " ++ sid)
  (errs', ¬ errs'.isEmpty)

/-- Check 6: no non-blank CONTENT line outside every section (first
offender only). -/
def check6Go (open_sections : List String) : List (Nat × String) → List String
  | [] => []
  | (i, line) :: rest =>
    match matchOpenTag line with
    | some sid => check6Go (open_sections ++ [sid]) rest
    | none =>
      match matchCloseTag line with
      | some sid =>
        match open_sections.getLast? with
        | some t =>
          if t = sid then check6Go open_sections.dropLast rest
          else check6Go open_sections rest
        | none => check6Go open_sections rest
      | none =>
        if open_sections.isEmpty ∧ ¬ (pyStrip line = "") then
          ["Content outside section block at line " ++ natToStr (i + 1)]
        else check6Go open_sections rest

def check6Errs (lines : List String) (content_start : Nat) : List String :=
  check6Go [] (lines.enum.drop content_start)

/-- Check 7: INDEX entries versus the live CONTENT parse, plus the
nesting-depth check. -/
def check7Errs (lines : List String) (content_start index_start : Nat) : List String :=
  let seg := (lines.take content_start).drop (index_start + 1)
  let rangesAndErrs := seg.foldl (fun (st : List (String × Int × Int) × List String) line =>
    let (ranges, errs) := st
    match matchValidateIndexEntry (pyStrip line) with
    | none => (ranges, errs)
    | some (sid, s, e) =>
      if ranges.any (·.1 = sid) then
        (ranges, errs ++ ["Duplicate INDEX section ID: " ++ sid])
      else
        (ranges ++ [(sid, ((s : Int), (e : Int)))],
         if (s : Int) < 1 ∨ (e : Int) < (s : Int) ∨ (lines.length : Int) < (e : Int) then
           errs ++ ["Invalid line range for INDEX section: " ++ sid]
         else errs)) ([], [])
  let index_ranges := rangesAndErrs.1
  let parsed_sections := parse_content_section lines content_start
  let content_sections := parsed_sections.foldl (fun (acc : List (String × Int × Int)) s =>
    if acc.any (·.1 = s.id) then
      acc.map (fun p => if p.1 = s.id then (p.1, (s.start_line, s.end_line)) else p)
    else acc ++ [(s.id, (s.start_line, s.end_line))]) []
  let errsDepth := parsed_sections.foldl (fun acc s =>
    if 2 < s.level then acc ++ ["Section nesting exceeds 2 levels: " ++ s.id]
    else acc) []
  let errsMissContent := index_ranges.foldl (fun acc p =>
    if content_sections.any (·.1 = p.1) then acc
    else acc ++ ["INDEX references missing CONTENT section: " ++ p.1]) []
  let errsMissIndex := content_sections.foldl (fun acc p =>
    if index_ranges.any (·.1 = p.1) then acc
    else acc ++ ["CONTENT section missing from INDEX: " ++ p.1]) []
  let errsMismatch := content_sections.foldl (fun acc p =>
    match index_ranges.find? (·.1 = p.1) with
    | some rg =>
      if ¬ (rg.2 = p.2) then acc ++ ["INDEX line range mismatch for section: " ++ p.1]
      else acc
    | none => acc) []
  rangesAndErrs.2 ++ errsDepth ++ errsMissContent ++ errsMissIndex ++ errsMismatch

/-- Check 8: section-id uniqueness over the whole file; returns the
collected ids and the duplicate errors. -/
def check8All (lines : List String) : List String × List String :=
  lines.foldl (fun (st : List String × List String) line =>
    let (ids, errs) := st
    match matchOpenTag line with
    | some sid =>
      (ids ++ [sid],
       if ids.contains sid then errs ++ ["Duplicate section ID: " ++ sid] else errs)
    | none => (ids, errs)) ([], [])

/-- The full error list of `validate_command`, in the order the source
appends (checks 1, 2, 4-nesting, 5, 6, 7, 8, 9). -/
def validate_errors (lines : List String) : List String :=
  let scanned := scanIndexContent lines
  let index_start := scanned.1
  let content_start := scanned.2.map (· + 1)
  let has_index := ¬ (indexPositions lines).isEmpty
  let c5 := check5All lines
  let invalid_nesting := c5.2
  check1Errs lines ++
  check2Errs lines ++
  (match content_start with
   | some cs =>
     match validate_nesting lines cs with
     | some err => ["Invalid section nesting: " ++ err]
     | none => []
   | none => []) ++
  c5.1 ++
  (match content_start with
   | some cs => if ¬ invalid_nesting then check6Errs lines cs else []
   | none => []) ++
  (match content_start, index_start with
   | some cs, some istart =>
     if ¬ invalid_nesting ∧ has_index then check7Errs lines cs istart else []
   | _, _ => []) ++
  (check8All lines).2 ++
  (match content_start with
   | some cs =>
     if ¬ invalid_nesting then
       validate_references lines cs (parse_content_section lines cs)
     else []
   | none => [])

/-- The warning list of `validate_command` (checks 2, 4 and 8). -/
def validate_warnings (lines : List String) : List String :=
  let scanned := scanIndexContent lines
  let index_start := scanned.1
  let content_start := scanned.2.map (· + 1)
  let has_index := ¬ (indexPositions lines).isEmpty
  (if ¬ has_index then ["No INDEX section (Run 'iatf rebuild' to create)"] else []) ++
  (if has_index then
    let content_hash_line :=
      match index_start, content_start with
      | some istart, some cs =>
        ((lines.take cs).drop istart).find? (fun l => pyStartsWith l "<!-- Content-Hash:")
      | _, _ => none
    match content_hash_line, content_start with
    | some chl, some cs =>
      match matchContentHashComment (pyStrip chl) with
      | none => ["Invalid Content-Hash format in INDEX"]
      | some (algo, expected) =>
        if ¬ (algo = "sha256") then ["Unsupported Content-Hash algorithm: " ++ algo]
        else
          let actual := sha256hex (pyJoin "\n" (lines.drop cs))
          let hash_matches :=
            if expected.data.length = 7 then pyStartsWith actual expected
            else actual = expected
          if ¬ hash_matches then
            ["INDEX Content-Hash does not match CONTENT (index may be stale)"]
          else []
    | _, _ => ["INDEX missing Content-Hash (Run 'iatf rebuild' to add)"]
   else []) ++
  (if ((check8All lines).1).isEmpty then ["No sections found in CONTENT"] else [])

/-- `validate_command` exit status: non-zero exactly when at least one
error (not merely a warning) is present. -/
def validate_command (lines : List String) : Nat :=
  if (validate_errors lines).isEmpty then 0 else 1

/-! ### Example documents

Concrete documents used to evaluate the embedded commands. A document is
the line list that `content.split("\n")` yields for the file text. -/

/-- A minimal valid document whose header block has no blank line before
`===INDEX===` and whose INDEX block is empty. -/
def dBare : List String :=
  [":::IATF", "===INDEX===", "===CONTENT===", "\x7b#a\x7d", "hello", "\x7b/a\x7d"]

/-- The result of one successful rebuild of `dBare`. -/
def dOnce : List String :=
  (rebuild_index dBare "2026-02-03" "2026-02-03T00:00:00Z").getD []

/-- The result of rebuilding `dOnce` again, with the same date and the
same generation timestamp, so that every difference between `dTwice` and
`dOnce` is a non-timestamp difference. -/
def dTwice : List String :=
  (rebuild_index dOnce "2026-02-03" "2026-02-03T00:00:00Z").getD []

/-- A document with a section nested at depth 3. -/
def dDepth3 : List String :=
  [":::IATF", "", "===INDEX===", "", "===CONTENT===", "",
   "\x7b#a\x7d", "\x7b#b\x7d", "\x7b#c\x7d", "x", "\x7b/c\x7d", "\x7b/b\x7d", "\x7b/a\x7d"]

/-- A document with invalid nesting: the closing tag names `b` while `a`
is the open section, so `a` is never closed. -/
def dUnbalanced : List String :=
  [":::IATF", "===INDEX===", "===CONTENT===", "\x7b#a\x7d", "hello", "\x7b/b\x7d"]

/-- A section body containing two heading lines. -/
def dTwoHeadings : List String :=
  ["===CONTENT===", "\x7b#s\x7d", "# First", "# Second", "\x7b/s\x7d"]

/-- A document whose INDEX declares the title `Introduction` for section
`intro`, in exactly the format `generate_index` renders. -/
def dIntro : List String :=
  [":::IATF", "", "===INDEX===",
   "# Introduction \x7b#intro | lines:8-10 | words:1\x7d", "", "===CONTENT===", "",
   "\x7b#intro\x7d", "# Introduction", "\x7b/intro\x7d"]

/-- A document whose CONTENT region contains no section delimiters. -/
def dNoSections : List String :=
  [":::IATF", "===INDEX===", "===CONTENT===", "just text"]

/-- A document whose only section contains a self-reference. -/
def dSelfRef : List String :=
  [":::IATF", "===INDEX===", "===CONTENT===", "\x7b#a\x7d", "x \x7b@a\x7d", "\x7b/a\x7d"]

/-- A two-section document in normalized spacing. -/
def dPair : List String :=
  [":::IATF", "", "===INDEX===", "", "===CONTENT===", "",
   "\x7b#a\x7d", "alpha", "\x7b/a\x7d", "\x7b#b\x7d", "beta", "\x7b/b\x7d"]

/-- `dPair` after a first rebuild on 2026-02-03. -/
def dPairBuilt : List String := (rebuild_index dPair "2026-02-03" "T1").getD []

/-- `dPairBuilt` with only section `b`'s body line edited
(line index 22, `beta` to `beta2`). -/
def dPairEdited : List String := dPairBuilt.set 22 "beta2"

/-- `dPairEdited` rebuilt later, on 2026-05-09. -/
def dPairRebuilt : List String := (rebuild_index dPairEdited "2026-05-09" "T2").getD []

/-- Prior-INDEX metadata used to exercise `updateSectionMeta` at a point:
section `a` was recorded with the hash of body `hello` and explicit dates. -/
def metaHello : List (String × IndexMetaEntry) :=
  [("a", ⟨"2cf24db", "2026-01-01", "2026-01-02"⟩)]

/-- A parsed section whose body is the single line `hello`. -/
def secHello : IATFSection :=
  { id := "a", title := "a", start_line := 4, end_line := 6,
    content_lines := ["hello"] }

/-! ### Helper lemmas -/

/-- The Content-Hash header comment is always the fourth line of a
rendered INDEX. -/
theorem contentHash_mem_generate_index (sections : List IATFSection) (ch ts : String) :
    ("<!-- Content-Hash: sha256:" ++ ch ++ " -->") ∈ generate_index sections ch ts := by
  simp [generate_index]

/-- The spliced rebuild output always contains the Content-Hash comment
computed from the input's CONTENT region. -/
theorem contentHash_mem_rebuildCore (lines : List String) (cs he ie : Nat)
    (secs : List IATFSection) (ts : String) :
    ("<!-- Content-Hash: sha256:" ++
      pyTakeStr (sha256hex (pyJoin "\n" (lines.drop cs))) 7 ++ " -->") ∈
      rebuildCore lines cs he ie secs ts := by
  unfold rebuildCore
  simp only []
  by_cases hd : ((generate_index (secs)
      (pyTakeStr (sha256hex (pyJoin "\n" (lines.drop cs))) 7) ts).length : Int) + 1 -
      ((ie : Int) - (he : Int)) ≠ 0
  · simp [if_pos hd, List.mem_append, contentHash_mem_generate_index]
  · simp [if_neg hd, List.mem_append, contentHash_mem_generate_index]

/-- Folding the depth-error accumulator only ever appends. -/
theorem depth_fold_mono (t : List IATFSection) :
    ∀ (acc : List String) (x : String), x ∈ acc →
      x ∈ t.foldl (fun acc s =>
        if 2 < s.level then acc ++ ["Section nesting exceeds 2 levels: " ++ s.id]
        else acc) acc := by
  induction t with
  | nil => intro acc x hx; simpa using hx
  | cons a t ih =>
    intro acc x hx
    simp only [List.foldl_cons]
    apply ih
    by_cases h : 2 < a.level
    · rw [if_pos h]; exact List.mem_append_left _ hx
    · rwa [if_neg h]

/-- Every section deeper than 2 contributes its error message to the
depth-error fold of check 7. -/
theorem depth_fold_mem (l : List IATFSection) :
    ∀ (acc : List String) (s : IATFSection), s ∈ l → 2 < s.level →
      ("Section nesting exceeds 2 levels: " ++ s.id) ∈
        l.foldl (fun acc s =>
          if 2 < s.level then acc ++ ["Section nesting exceeds 2 levels: " ++ s.id]
          else acc) acc := by
  induction l with
  | nil => intro acc s hs; cases hs
  | cons a t ih =>
    intro acc s hs hlev
    simp only [List.foldl_cons]
    rcases List.mem_cons.mp hs with rfl | hs'
    · apply depth_fold_mono
      rw [if_pos hlev]
      exact List.mem_append_right _ (by simp)
    · exact ih _ s hs' hlev

/-! ### Claim theorems -/

/-- C1, counterexample: the hash recorded in the INDEX header of a
successfully rebuilt document (`dOnce`, the rebuild of `dBare`) is the
7-character truncation of the SHA-256 of the CONTENT region (the lines
after the `===CONTENT===` marker, which sits at index 12, joined by
newline) — it is not the full untruncated digest, contradicting the
claim. -/
theorem c1_counterexample :
    rebuild_index dBare "2026-02-03" "2026-02-03T00:00:00Z" = some dOnce ∧
    dOnce.get? 12 = some "===CONTENT===" ∧
    dOnce.get? 5 = some ("<!-- Content-Hash: sha256:" ++
      pyTakeStr (sha256hex (pyJoin "\n" (dOnce.drop 13))) 7 ++ " -->") ∧
    pyTakeStr (sha256hex (pyJoin "\n" (dOnce.drop 13))) 7 ≠
      sha256hex (pyJoin "\n" (dOnce.drop 13)) := by
  refine ⟨by decide, by decide, by decide, by decide⟩

/-- C1, amended: on every successful rebuild the INDEX records a
`Content-Hash: sha256:` comment whose hex digest is the first 7
characters (Git-style truncation) of the SHA-256 of the CONTENT region
text, recomputed from the input lines on every rebuild. -/
theorem c1_amended_truncated_hash (lines : List String) (today genTimestamp : String)
    (out : List String) (ci : Nat)
    (hci : firstIdx (fun l => pyStrip l = "===CONTENT===") lines = some ci)
    (h : rebuild_index lines today genTimestamp = some out) :
    ("<!-- Content-Hash: sha256:" ++
      pyTakeStr (sha256hex (pyJoin "\n" (lines.drop (ci + 1)))) 7 ++ " -->") ∈ out := by
  unfold rebuild_index at h
  rw [hci] at h
  simp only [] at h
  cases hn : validate_nesting lines (ci + 1) with
  | some e => rw [hn] at h; exact absurd h (by simp)
  | none =>
    rw [hn] at h
    by_cases hs : (parse_content_section lines (ci + 1)).isEmpty
    · rw [if_pos hs] at h; exact absurd h (by simp)
    · rw [if_neg hs] at h
      by_cases hdup : ¬ (find_duplicate_section_ids (parse_content_section lines (ci + 1))).isEmpty
      · rw [if_pos hdup] at h; exact absurd h (by simp)
      · rw [if_neg hdup] at h
        by_cases href : ¬ (validate_references lines (ci + 1)
            (parse_content_section lines (ci + 1))).isEmpty
        · rw [if_pos href] at h; exact absurd h (by simp)
        · rw [if_neg href] at h
          cases hscan : scanIndexContent lines with
          | mk fst snd =>
            rw [hscan] at h
            cases fst with
            | some he =>
              cases snd with
              | some ie =>
                simp only [Option.some.injEq] at h
                rw [← h]
                exact contentHash_mem_rebuildCore _ _ _ _ _ _
              | none => exact absurd h (by simp)
            | none =>
              cases snd with
              | some ie =>
                cases hfb : headerEndFallback lines with
                | some he =>
                  rw [hfb] at h
                  simp only [Option.some.injEq] at h
                  rw [← h]
                  exact contentHash_mem_rebuildCore _ _ _ _ _ _
                | none => rw [hfb] at h; exact absurd h (by simp)
              | none => exact absurd h (by simp)

/-- C1, witness: the amended theorem instantiated at `dBare` (CONTENT
marker at index 2, so the region is `dBare.drop 3`). -/
theorem c1_witness :
    ("<!-- Content-Hash: sha256:" ++
      pyTakeStr (sha256hex (pyJoin "\n" (dBare.drop 3))) 7 ++ " -->") ∈ dOnce :=
  c1_amended_truncated_hash dBare "2026-02-03" "2026-02-03T00:00:00Z" dOnce 2
    (by decide) (by decide)

/-- C2, counterexample: `dDepth3` contains a section `c` at nesting
depth 3, yet `rebuild_index` succeeds on it (performing a write that
changes the file), contradicting the claim that rebuild refuses to
write on every such document. -/
theorem c2_counterexample :
    (parse_content_section dDepth3 5).map (fun s => (s.id, s.level)) =
      [("a", 1), ("b", 2), ("c", 3)] ∧
    (rebuild_index dDepth3 "2026-02-03" "TS").isSome = true ∧
    rebuild_index dDepth3 "2026-02-03" "TS" ≠ some dDepth3 := by
  refine ⟨by decide, by decide, by decide⟩

/-- C2, amended: `rebuild_index` performs no nesting-depth check, but
`validate_command` reports `Section nesting exceeds 2 levels: <id>` for
each section deeper than 2, provided the document has an `===INDEX===`
marker before the first `===CONTENT===` marker and its delimiter
nesting is otherwise valid (check 7's gate). -/
theorem c2_amended_validate_depth (lines : List String) (istart ci : Nat)
    (s : IATFSection)
    (hscan : scanIndexContent lines = (some istart, some ci))
    (hidx : (indexPositions lines).isEmpty = false)
    (hnest : (check5All lines).2 = false)
    (hs : s ∈ parse_content_section lines (ci + 1))
    (hlev : 2 < s.level) :
    ("Section nesting exceeds 2 levels: " ++ s.id) ∈ validate_errors lines := by
  have hdepth : ("Section nesting exceeds 2 levels: " ++ s.id) ∈
      check7Errs lines (ci + 1) istart := by
    unfold check7Errs
    simp only []
    exact List.mem_append_left _ (List.mem_append_left _ (List.mem_append_left _
      (List.mem_append_right _ (depth_fold_mem _ _ s hs hlev))))
  unfold validate_errors
  rw [hscan]
  simp only [hnest, hidx, Option.map_some', Bool.not_false, Bool.false_eq_true,
    not_false_eq_true, true_and, and_true, if_true, and_self, if_pos]
  simp only [List.mem_append]
  tauto

/-- C2, witness: the amended theorem at `dDepth3` and its depth-3
section `c` (the third parsed section). -/
theorem c2_witness :
    ("Section nesting exceeds 2 levels: " ++
      (((parse_content_section dDepth3 5).get? 2).getD secHello).id) ∈
      validate_errors dDepth3 :=
  c2_amended_validate_depth dDepth3 2 4
    (((parse_content_section dDepth3 5).get? 2).getD secHello)
    (by decide) (by decide) (by decide) (by decide) (by decide)

/-- C3: if the CONTENT marker is found but nesting is invalid, or
duplicate section ids exist, or reference validation reports any error,
then `rebuild_index` returns `none` — the source reaches a
`return False` (or the caught `NameError` of the reference-error path)
before `write_text`, so the file is left byte-identical. -/
theorem c3_structural_errors_block_rebuild
    (lines : List String) (today genTimestamp : String) (ci : Nat)
    (hci : firstIdx (fun l => pyStrip l = "===CONTENT===") lines = some ci)
    (herr : validate_nesting lines (ci + 1) ≠ none ∨
      find_duplicate_section_ids (parse_content_section lines (ci + 1)) ≠ [] ∨
      validate_references lines (ci + 1) (parse_content_section lines (ci + 1)) ≠ []) :
    rebuild_index lines today genTimestamp = none := by
  unfold rebuild_index
  rw [hci]
  simp only []
  cases hn : validate_nesting lines (ci + 1) with
  | some e => rfl
  | none =>
    rcases herr with h | h | h
    · exact absurd hn h
    · by_cases hs : (parse_content_section lines (ci + 1)).isEmpty
      · simp [hs]
      · simp [hs, h, List.isEmpty_iff]
    · by_cases hs : (parse_content_section lines (ci + 1)).isEmpty
      · simp [hs]
      · by_cases hd : (find_duplicate_section_ids (parse_content_section lines (ci + 1))).isEmpty
        · simp [hs, hd, h, List.isEmpty_iff]
        · simp [hs, hd]

/-- C3, witness: `dSelfRef` has a self-reference, so its rebuild fails
without a write. -/
theorem c3_witness : rebuild_index dSelfRef "2026-02-03" "TS" = none :=
  c3_structural_errors_block_rebuild dSelfRef "2026-02-03" "TS" 2 (by decide)
    (Or.inr (Or.inr (by decide)))

/-- C4, counterexample: `dUnbalanced` has invalid nesting (a closing
tag without matching opening), yet `read_command` succeeds with exit
code 0 (printing the empty slice `lines[3:0]`), contradicting the claim
that read-by-id refuses to proceed on every document with invalid
nesting. -/
theorem c4_counterexample :
    validate_nesting dUnbalanced 3 = some "Closing tag without matching opening: b" ∧
    read_command dUnbalanced "a" = some [] := by
  refine ⟨by decide, by decide⟩

/-- C4, amended: `read_command` runs no nesting validation at all — it
succeeds exactly when the INDEX and CONTENT markers are found (INDEX
first) and the section parser yields a section with the requested id,
regardless of nesting validity. -/
theorem c4_amended_read_no_nesting_check (lines : List String) (section_id : String) :
    (read_command lines section_id).isSome = true ↔
      (∃ istart ci, scanIndexContent lines = (some istart, some ci) ∧
        ∃ s ∈ parse_content_section lines (ci + 1), s.id = section_id) := by
  unfold read_command
  cases hscan : scanIndexContent lines with
  | mk fst snd =>
    cases fst with
    | none => cases snd <;> simp
    | some istart =>
      cases snd with
      | none => simp
      | some ci =>
        simp only []
        constructor
        · intro h
          cases hf : (parse_content_section lines (ci + 1)).find? (·.id = section_id) with
          | none => rw [hf] at h; simp at h
          | some sfound =>
            refine ⟨istart, ci, rfl, sfound, List.mem_of_find?_eq_some hf, ?_⟩
            simpa using List.find?_some hf
        · rintro ⟨istart', ci', heq, sfound, hmem, hid⟩
          have hpair : istart = istart' ∧ ci = ci' := by
            simpa [Prod.mk.injEq] using heq
          cases hf : (parse_content_section lines (ci + 1)).find? (·.id = section_id) with
          | some sfound' => simp [hf]
          | none =>
            have hmem' : sfound ∈ parse_content_section lines (ci + 1) := by
              rw [hpair.2]; exact hmem
            exact absurd (by simpa using hid)
              (by simpa using List.find?_eq_none.mp hf sfound hmem')

/-- C4, witness: the amended characterization applied to `dUnbalanced`,
whose nesting is invalid, still yields success for id `a`. -/
theorem c4_witness : (read_command dUnbalanced "a").isSome = true :=
  (c4_amended_read_no_nesting_check dUnbalanced "a").mpr
    ⟨1, 2, by decide,
     ((parse_content_section dUnbalanced 3).get? 0).getD secHello, by decide, by decide⟩

/-- C5: on a section body with two heading lines (`# First` then
`# Second`), the parser's title is `Second` — each later heading line
overwrites the title (the guard `not title.startswith("#")` never
blocks, because `lstrip("#").strip()` removes the leading hashes), so
the first heading does not win, contradicting the claim and the
source's own comment `Extract title from first heading`. -/
theorem c5_last_heading_wins :
    (parse_content_section dTwoHeadings 1).map (fun s => (s.id, s.title)) =
      [("s", "Second")] := by
  decide

/-- C6: (general) for every section whose prior INDEX-recorded hash
(non-empty, hence actually recorded) equals its newly computed content
hash and whose prior created date is recorded, the staleness update
carries `created`, `modified` and the hash forward unchanged; and
(in particular) in the concrete two-section document `dPairBuilt`,
editing only section `b`'s body and rebuilding (`dPairRebuilt`) leaves
section `a`'s INDEX entry, Created/Modified line and Hash line
byte-identical, while only `b`'s Modified date and Hash change. -/
theorem c6_hash_equal_carries_dates :
    (∀ (index_meta : List (String × IndexMetaEntry)) (today : String) (s : IATFSection),
      (metaLookup index_meta s.id).hash ≠ "" →
      (metaLookup index_meta s.id).hash = compute_content_hash s.content_lines →
      (metaLookup index_meta s.id).created ≠ "" →
      ((updateSectionMeta index_meta today s).created = (metaLookup index_meta s.id).created ∧
       (updateSectionMeta index_meta today s).modified = (metaLookup index_meta s.id).modified ∧
       (updateSectionMeta index_meta today s).x_hash = (metaLookup index_meta s.id).hash)) ∧
    (rebuild_index dPair "2026-02-03" "T1" = some dPairBuilt ∧
     rebuild_index dPairEdited "2026-05-09" "T2" = some dPairRebuilt ∧
     dPairRebuilt.get? 7 = dPairBuilt.get? 7 ∧
     dPairRebuilt.get? 8 = dPairBuilt.get? 8 ∧
     dPairRebuilt.get? 9 = dPairBuilt.get? 9 ∧
     dPairRebuilt.get? 11 = dPairBuilt.get? 11 ∧
     dPairBuilt.get? 8 = some "  Created: 2026-02-03 | Modified: 2026-02-03" ∧
     dPairBuilt.get? 12 = some "  Created: 2026-02-03 | Modified: 2026-02-03" ∧
     dPairRebuilt.get? 12 = some "  Created: 2026-02-03 | Modified: 2026-05-09" ∧
     dPairRebuilt.get? 13 ≠ dPairBuilt.get? 13) := by
  constructor
  · intro index_meta today s hrec heq hcr
    unfold updateSectionMeta
    simp only []
    refine ⟨by rw [if_pos hcr], ?_, heq.symm⟩
    rw [if_neg (by simp [heq]), if_pos hrec]
  · refine ⟨by decide, by decide, by decide, by decide, by decide, by decide,
      by decide, by decide, by decide, by decide⟩

/-- C6, witness: the general carry-forward part instantiated at
`metaHello`/`secHello`, where the recorded hash `2cf24db` equals the
computed hash of the body `hello`. -/
theorem c6_witness :
    ((metaLookup metaHello secHello.id).hash ≠ "" ∧
     (metaLookup metaHello secHello.id).hash = compute_content_hash secHello.content_lines ∧
     (metaLookup metaHello secHello.id).created ≠ "") ∧
    ((updateSectionMeta metaHello "2026-09-09" secHello).created =
       (metaLookup metaHello secHello.id).created ∧
     (updateSectionMeta metaHello "2026-09-09" secHello).modified =
       (metaLookup metaHello secHello.id).modified ∧
     (updateSectionMeta metaHello "2026-09-09" secHello).x_hash =
       (metaLookup metaHello secHello.id).hash) :=
  ⟨⟨by decide, by decide, by decide⟩,
   c6_hash_equal_carries_dates.1 metaHello "2026-09-09" secHello
     (by decide) (by decide) (by decide)⟩

/-- C7: rebuilding the already-rebuilt `dOnce` with the same date and
the same generation timestamp yields `dTwice`, which differs from
`dOnce` in the per-section line-range annotation (`lines:13-15` becomes
`lines:14-16`) while the generation-timestamp lines are identical — so
the outputs differ beyond the generation-timestamp comment,
contradicting the claimed idempotence. The cause: the first rebuild's
`line_delta` ignores the blank-line normalization of the splice, so the
published ranges are off by one and the second rebuild corrects them. -/
theorem c7_second_rebuild_differs_beyond_timestamp :
    rebuild_index dBare "2026-02-03" "2026-02-03T00:00:00Z" = some dOnce ∧
    rebuild_index dOnce "2026-02-03" "2026-02-03T00:00:00Z" = some dTwice ∧
    dTwice.get? 4 = dOnce.get? 4 ∧
    dOnce.get? 7 = some "# a \x7b#a | lines:13-15 | words:1\x7d" ∧
    dTwice.get? 7 = some "# a \x7b#a | lines:14-16 | words:1\x7d" ∧
    dTwice ≠ dOnce := by
  refine ⟨by decide, by decide, by decide, by decide, by decide, by decide⟩

/-- C8: in the rebuilt document `dOnce` the INDEX publishes
`lines:13-15` for section `a`, but line 13 of `dOnce` is the
`===CONTENT===` marker and the section's delimiters actually sit at
lines 14-16; `read_command` returns lines 14-16 (which do begin and end
with the delimiters), not the published 13-15, and the code's own
validator reports `INDEX line range mismatch for section: a` on this
rebuild output — contradicting the claimed round-trip property. -/
theorem c8_index_range_off_by_one :
    rebuild_index dBare "2026-02-03" "2026-02-03T00:00:00Z" = some dOnce ∧
    dOnce.get? 7 = some "# a \x7b#a | lines:13-15 | words:1\x7d" ∧
    (dOnce.drop 12).take 3 = ["===CONTENT===", "\x7b#a\x7d", "hello"] ∧
    (dOnce.drop 13).take 3 = ["\x7b#a\x7d", "hello", "\x7b/a\x7d"] ∧
    read_command dOnce "a" = some ["\x7b#a\x7d", "hello", "\x7b/a\x7d"] ∧
    read_command dOnce "a" ≠ some ((dOnce.drop 12).take 3) ∧
    validate_errors dOnce = ["INDEX line range mismatch for section: a"] := by
  refine ⟨by decide, by decide, by decide, by decide, by decide, by decide, by decide⟩

/-- C9: `read_by_title_command`'s entry pattern (source line 877)
contains the literal text `[OK] ` inside the title group, so an INDEX
entry in exactly the rendered format `# Introduction \x7b#intro | ... \x7d`
never matches (its title does not end in `O` or `K` plus a space):
the title query `Introduction` fails with an error even though the
section exists, its INDEX entry declares that exact title, and
`read_command` retrieves it by id — contradicting the claimed exact
then substring resolution. -/
theorem c9_read_by_title_never_matches :
    matchReadTitleEntry (pyStrip "# Introduction \x7b#intro | lines:8-10 | words:1\x7d") = none ∧
    read_by_title_command dIntro "Introduction" = none ∧
    read_command dIntro "intro" = some ["\x7b#intro\x7d", "# Introduction", "\x7b/intro\x7d"] := by
  refine ⟨by decide, by decide, by decide⟩

/-- C10: when the CONTENT marker is present but the parse yields no
sections, `rebuild_index` returns `none` (the `Warning: No sections
found` path returns `False` before any write), leaving the file
byte-identical. -/
theorem c10_empty_parse_blocks_rebuild
    (lines : List String) (today genTimestamp : String) (ci : Nat)
    (hci : firstIdx (fun l => pyStrip l = "===CONTENT===") lines = some ci)
    (hemp : parse_content_section lines (ci + 1) = []) :
    rebuild_index lines today genTimestamp = none := by
  unfold rebuild_index
  rw [hci]
  simp only []
  cases hn : validate_nesting lines (ci + 1) with
  | some e => rfl
  | none => simp [hemp]

/-- C10, witness: `dNoSections` has a CONTENT region without any
section delimiters; its rebuild fails. -/
theorem c10_witness : rebuild_index dNoSections "2026-02-03" "TS" = none :=
  c10_empty_parse_blocks_rebuild dNoSections "2026-02-03" "TS" 2 (by decide) (by decide)
